import Mathlib

set_option linter.unusedVariables false
set_option autoImplicit false
set_option linter.unnecessarySeqFocus false

/-- Row of the parking_spaces table, with the columns the verified operations
consult: id, parking_lot_id, is_occupied. -/
structure ParkingSpace where
  id : String
  parkingLotId : String
  isOccupied : Bool
deriving DecidableEq

/-- Row of the reservations table, with the columns the verified operations
consult; the timestamp columns that the updates touch are kept as strings. -/
structure Reservation where
  id : String
  userId : String
  parkingLotId : String
  parkingSpaceId : String
  status : String
  checkinTime : Option String
  updatedAt : String
deriving DecidableEq

/-- State visible to FindAndLockAvailableSpot: the relational store plus the
set of lock keys currently held elsewhere in the shared lock store. -/
structure SpotDB where
  spaces : List ParkingSpace
  reservations : List Reservation
  heldLocks : List String
deriving DecidableEq

/-- The NOT EXISTS subquery of the availability query: some reservation on the
given space has status active or checked-in. -/
def hasBlockingReservation (rs : List Reservation) (spaceId : String) : Bool :=
  rs.any fun r => r.parkingSpaceId == spaceId && (r.status == "active" || r.status == "checked-in")

/-- Rows of the availability query before the LIMIT clause: ids of spaces of the
lot with no active or checked-in reservation, in table order. -/
def candidateSpaces (db : SpotDB) (lot : String) : List String :=
  (db.spaces.filter fun ps => ps.parkingLotId == lot && !hasBlockingReservation db.reservations ps.id).map fun ps => ps.id

/-- Resource key used by the check-in code for the distributed spot lock. -/
def lockKey (s : String) : String := "spot-lock:" ++ s

/-- The row loop of FindAndLockAvailableSpot: scan each returned row, attempt
AcquireLock on its key, and return the first id whose acquisition succeeds.
Acquisition succeeds exactly when the key is not already held. -/
def lockFirstFree (held : List String) : List String → Option String
  | [] => none
  | s :: rest => if lockKey s ∈ held then lockFirstFree held rest else some s

/-- FindAndLockAvailableSpot of backend/services/parking_services.go. The SQL
query carries LIMIT 1, so the row loop runs over at most the first candidate.
Returns the locked spot id, or none for the no-available-spot error. -/
def FindAndLockAvailableSpot (db : SpotDB) (lot : String) : Option String :=
  lockFirstFree db.heldLocks ((candidateSpaces db lot).take 1)

/-- The Alternative Spot Finder as the specification text describes it: try
every candidate of the lot in enumeration order until one lock acquisition
succeeds. Kept for comparison with the implementation above. -/
def findAndLockSpec (db : SpotDB) (lot : String) : Option String :=
  lockFirstFree db.heldLocks (candidateSpaces db lot)

/-- GetBookingByID of backend/services/reservation_services.go: QueryRow on
SELECT ... FROM reservations WHERE id = $1, scanning the first matching row.
The userID argument is accepted but does not appear in the query. -/
def GetBookingByID (reservations : List Reservation) (reservationID : String) (userID : String) : Option Reservation :=
  (reservations.filter fun r => r.id == reservationID).head?

/-- The relational store as seen by the reservation service: the parking_spaces
and reservations tables. -/
structure Store where
  spaces : List ParkingSpace
  reservations : List Reservation
deriving DecidableEq

/-- IsParkingSpaceOccupied of backend/services/parking_services.go:
SELECT is_occupied FROM parking_spaces WHERE id = $1; no row yields the
not-found error. -/
def IsParkingSpaceOccupied (spaces : List ParkingSpace) (spotID : String) : Except String Bool :=
  match (spaces.filter fun s => s.id == spotID).head? with
  | some s => Except.ok s.isOccupied
  | none => Except.error ("parking space " ++ spotID ++ " not found")

/-- The UPDATE statement of UpdateBookingWithSpot: UPDATE reservations
SET status, parking_lot_id, parking_space_id, checkin_time (only when the new
status is active), updated_at WHERE id = $4 AND user_id = $5; QueryRow yields
the no-rows error when no row matches. The now argument stands for NOW(). -/
def updateReservations (st : Store) (now status userID bookingID lotID spotID : String) : Except String Store :=
  if st.reservations.any (fun r => r.id == bookingID && r.userId == userID) then
    Except.ok { st with reservations := st.reservations.map fun r =>
      if r.id == bookingID && r.userId == userID then
        { r with status := status, parkingLotId := lotID, parkingSpaceId := spotID,
                 checkinTime := if status == "active" then some now else r.checkinTime,
                 updatedAt := now }
      else r }
  else Except.error ("no booking found with ID " ++ bookingID ++ " for user " ++ userID)

/-- UpdateBookingWithSpot of backend/services/reservation_services.go: for
status active it first reads the occupancy of the target space and refuses the
update when the read fails or reports occupied; for any other status the
update runs without that guard. -/
def UpdateBookingWithSpot (st : Store) (now status userID bookingID lotID spotID : String) : Except String Store :=
  if status == "active" then
    match IsParkingSpaceOccupied st.spaces spotID with
    | Except.error e => Except.error ("failed to check parking space status: " ++ e)
    | Except.ok true => Except.error ("parking space " ++ spotID ++ " is already occupied")
    | Except.ok false => updateReservations st now status userID bookingID lotID spotID
  else updateReservations st now status userID bookingID lotID spotID

/-- RevertBookingSpot of backend/services/reservation_services.go:
UPDATE reservations SET status = confirmed, checkin_time = NULL, updated_at
WHERE id = $1 AND user_id = $2. -/
def RevertBookingSpot (st : Store) (now bookingID userID : String) : Store :=
  { st with reservations := st.reservations.map fun r =>
      if r.id == bookingID && r.userId == userID then
        { r with status := "confirmed", checkinTime := none, updatedAt := now }
      else r }

/-- Outcome of one IsParkingSpaceOccupied call as seen by ProcessCheckIn:
a boolean occupancy value or a store error. -/
inductive ReadRes
  | val (b : Bool)
  | err
deriving DecidableEq

/-- The notification helpers of backend/handlers/gate_handler.go, identified by
which helper is called and for which space. -/
inductive Notify
  | findAlternative (spot : String)
  | noAlternative (spot : String)
  | alternativeFound (spot : String)
  | parkingUpdate (spot : String)
  | occupancy (spot : String)
deriving DecidableEq

/-- Externally visible actions of one ProcessCheckIn run, in program order:
semaphore traffic, the booking lookup, lock service calls, store reads and
writes, the compensating revert, and notification calls. -/
inductive Event
  | semAcquire
  | semRelease
  | getBooking
  | lockAcquire (key : String) (ok : Bool)
  | lockRelease (key : String)
  | checkOccupied (spot : String)
  | finderCall
  | updateBooking (spot : String) (ok : Bool)
  | setOccupied (spot : String) (ok : Bool)
  | revertBooking (ok : Bool)
  | notify (n : Notify)
deriving DecidableEq

/-- Terminal outcome of one ProcessCheckIn run, one constructor per return
site of the Go function. -/
inductive CheckInResult
  | committed
  | admissionTimeout
  | bookingNotFound
  | noAvailableSpot
  | updateBookingErr
  | updateSpaceErr
deriving DecidableEq

/-- Outcomes of the external calls a single ProcessCheckIn run can make; each
field is consulted at the unique call site of the corresponding operation.
semFree: a semaphore slot becomes free within the 30 second window.
booking: result of GetBookingByID (none covers both error and nil).
lockOriginal: AcquireLock on the originally assigned space succeeds.
checkOriginal, checkAlt: the two IsParkingSpaceOccupied call sites.
finder: result of FindAndLockAvailableSpot.
updateBookingOk, setOccupiedOk, revertOk: success of the three writes. -/
structure World where
  semFree : Bool
  booking : Option Reservation
  lockOriginal : Bool
  checkOriginal : ReadRes
  finder : Option String
  checkAlt : ReadRes
  updateBookingOk : Bool
  setOccupiedOk : Bool
  revertOk : Bool
deriving DecidableEq

/-- The ProcessSpot block of ProcessCheckIn: update the booking to active, then
mark the space occupied, with one compensating RevertBookingSpot call when the
occupancy write fails after the booking write succeeded, then notifications;
the deferred lock release and the deferred semaphore release close the trace. -/
def processSpot (w : World) (spot : String) : CheckInResult × List Event :=
  if w.updateBookingOk then
    if w.setOccupiedOk then
      (CheckInResult.committed,
       [Event.updateBooking spot true, Event.setOccupied spot true,
        Event.notify (Notify.parkingUpdate spot), Event.notify (Notify.occupancy spot),
        Event.lockRelease (lockKey spot), Event.semRelease])
    else
      (CheckInResult.updateSpaceErr,
       [Event.updateBooking spot true, Event.setOccupied spot false,
        Event.revertBooking w.revertOk,
        Event.lockRelease (lockKey spot), Event.semRelease])
  else
    (CheckInResult.updateBookingErr,
     [Event.updateBooking spot false, Event.lockRelease (lockKey spot), Event.semRelease])

/-- The FindAlternative block of ProcessCheckIn: call the Finder; on failure
notify no-alternative for the original space and fail; on success re-check the
returned space and either fail hard (releasing its lock) or notify that an
alternative was found and continue with ProcessSpot on it. -/
def findAlternativePhase (w : World) (origSpot : String) (pre : List Event) : CheckInResult × List Event :=
  match w.finder with
  | none =>
    (CheckInResult.noAvailableSpot,
     pre ++ [Event.finderCall, Event.notify (Notify.noAlternative origSpot), Event.semRelease])
  | some alt =>
    match w.checkAlt with
    | ReadRes.err =>
      (CheckInResult.noAvailableSpot,
       pre ++ [Event.finderCall, Event.lockAcquire (lockKey alt) true, Event.checkOccupied alt,
               Event.lockRelease (lockKey alt), Event.notify (Notify.noAlternative alt), Event.semRelease])
    | ReadRes.val true =>
      (CheckInResult.noAvailableSpot,
       pre ++ [Event.finderCall, Event.lockAcquire (lockKey alt) true, Event.checkOccupied alt,
               Event.lockRelease (lockKey alt), Event.notify (Notify.noAlternative alt), Event.semRelease])
    | ReadRes.val false =>
      ((processSpot w alt).1,
       pre ++ [Event.finderCall, Event.lockAcquire (lockKey alt) true, Event.checkOccupied alt,
               Event.notify (Notify.alternativeFound alt)] ++ (processSpot w alt).2)

/-- ProcessCheckIn of backend/handlers/gate_handler.go, as the pair of its
terminal outcome and its trace of external actions. On semaphore timeout it
returns before any other action. After the booking lookup it tries the lock on
the originally assigned space: on acquisition failure it jumps to the
alternative search with no notification; with the lock held it re-checks
occupancy, jumping to the search on store error (after releasing the lock,
without notification) or on occupied (after releasing the lock, with the
find-alternative notification); a verified-free space goes to ProcessSpot. -/
def ProcessCheckIn (w : World) : CheckInResult × List Event :=
  if w.semFree then
    match w.booking with
    | none => (CheckInResult.bookingNotFound, [Event.semAcquire, Event.getBooking, Event.semRelease])
    | some b =>
      if w.lockOriginal then
        match w.checkOriginal with
        | ReadRes.err =>
          findAlternativePhase w b.parkingSpaceId
            [Event.semAcquire, Event.getBooking, Event.lockAcquire (lockKey b.parkingSpaceId) true,
             Event.checkOccupied b.parkingSpaceId, Event.lockRelease (lockKey b.parkingSpaceId)]
        | ReadRes.val true =>
          findAlternativePhase w b.parkingSpaceId
            [Event.semAcquire, Event.getBooking, Event.lockAcquire (lockKey b.parkingSpaceId) true,
             Event.checkOccupied b.parkingSpaceId, Event.lockRelease (lockKey b.parkingSpaceId),
             Event.notify (Notify.findAlternative b.parkingSpaceId)]
        | ReadRes.val false =>
          ((processSpot w b.parkingSpaceId).1,
           [Event.semAcquire, Event.getBooking, Event.lockAcquire (lockKey b.parkingSpaceId) true,
            Event.checkOccupied b.parkingSpaceId] ++ (processSpot w b.parkingSpaceId).2)
      else
        findAlternativePhase w b.parkingSpaceId
          [Event.semAcquire, Event.getBooking, Event.lockAcquire (lockKey b.parkingSpaceId) false]
  else (CheckInResult.admissionTimeout, [])

/-- Capacity of the processing semaphore declared in the utils package:
make(chan struct, 50). -/
def SemCapacity : Nat := 50

/-- Operations on the admission semaphore. -/
inductive GateOp
  | enter
  | exit
deriving DecidableEq

/-- Projection of a trace to its admission semaphore operations. -/
def gateEvents : List Event → List GateOp
  | [] => []
  | Event.semAcquire :: es => GateOp.enter :: gateEvents es
  | Event.semRelease :: es => GateOp.exit :: gateEvents es
  | _ :: es => gateEvents es

/-- Channel semantics of the bounded semaphore: an enter is only accepted
while the held count is below capacity; the result is the final held count,
or none when an enter would have to block at full capacity. -/
def gateRun : List GateOp → Nat → Option Nat
  | [], c => some c
  | GateOp.enter :: ops, c => if c < SemCapacity then gateRun ops (c + 1) else none
  | GateOp.exit :: ops, c => gateRun ops (c - 1)

/-- Held counts reached along a semaphore operation sequence, the starting
count included. -/
def heldCounts : List GateOp → Nat → List Nat
  | [], c => [c]
  | GateOp.enter :: ops, c => c :: heldCounts ops (c + 1)
  | GateOp.exit :: ops, c => c :: heldCounts ops (c - 1)

/-- processParkingRequest of the main package: the single consumer loop takes
each queued request in order and calls ProcessCheckIn on it synchronously, so
the trace of the loop is the concatenation of the complete run traces. -/
def processParkingRequest (ws : List World) : List Event :=
  match ws with
  | [] => []
  | w :: rest => (ProcessCheckIn w).2 ++ processParkingRequest rest

/-- The run reached ProcessSpot through the original space: the lock on it was
acquired and the re-check reported it free. -/
def viaOriginal (w : World) : Prop :=
  w.lockOriginal = true ∧ w.checkOriginal = ReadRes.val false

/-- The run reached ProcessSpot through the alternative search: the original
path fell through, the Finder returned a space and its re-check reported it
free. -/
def viaAlternative (w : World) : Prop :=
  ¬ viaOriginal w ∧ w.finder.isSome = true ∧ w.checkAlt = ReadRes.val false

/-- The run entered the ProcessSpot block: admitted, booking found, and one of
the two paths delivered a locked, verified-free space. -/
def assignEntered (w : World) : Prop :=
  w.semFree = true ∧ w.booking.isSome = true ∧ (viaOriginal w ∨ viaAlternative w)

/-- Number of RevertBookingSpot calls recorded in a trace. -/
def countRevert : List Event → Nat
  | [] => 0
  | Event.revertBooking _ :: es => countRevert es + 1
  | _ :: es => countRevert es

/-- Number of Finder invocations recorded in a trace. -/
def countFinder : List Event → Nat
  | [] => 0
  | Event.finderCall :: es => countFinder es + 1
  | _ :: es => countFinder es

theorem gateEvents_append (a b : List Event) :
    gateEvents (a ++ b) = gateEvents a ++ gateEvents b := by
  induction a with
  | nil => rfl
  | cons e es ih => cases e <;> simp [gateEvents, ih]

theorem gateEvents_processSpot (w : World) (s : String) :
    gateEvents (processSpot w s).2 = [GateOp.exit] := by
  cases hub : w.updateBookingOk <;> cases hso : w.setOccupiedOk <;>
    simp [processSpot, hub, hso, gateEvents]

theorem gateEvents_findAlt (w : World) (s : String) (pre : List Event) :
    gateEvents (findAlternativePhase w s pre).2 = gateEvents pre ++ [GateOp.exit] := by
  cases hf : w.finder with
  | none => simp [findAlternativePhase, hf, gateEvents_append, gateEvents]
  | some alt =>
    cases hca : w.checkAlt with
    | err => simp [findAlternativePhase, hf, hca, gateEvents_append, gateEvents]
    | val b =>
      cases b <;>
        simp [findAlternativePhase, hf, hca, gateEvents_append, gateEvents, gateEvents_processSpot]

theorem gateShape (w : World) :
    gateEvents (ProcessCheckIn w).2 = [] ∨
    gateEvents (ProcessCheckIn w).2 = [GateOp.enter, GateOp.exit] := by
  cases hs : w.semFree with
  | false => left; simp [ProcessCheckIn, hs, gateEvents]
  | true =>
    right
    cases hb : w.booking with
    | none => simp [ProcessCheckIn, hs, hb, gateEvents]
    | some b =>
      cases hlo : w.lockOriginal with
      | false => simp [ProcessCheckIn, hs, hb, hlo, gateEvents_findAlt, gateEvents]
      | true =>
        cases hco : w.checkOriginal with
        | err => simp [ProcessCheckIn, hs, hb, hlo, hco, gateEvents_findAlt, gateEvents]
        | val occ =>
          cases occ <;>
            simp [ProcessCheckIn, hs, hb, hlo, hco, gateEvents_findAlt, gateEvents_append,
                  gateEvents_processSpot, gateEvents]

theorem heldCounts_bounded (ops : List GateOp) (c c2 : Nat)
    (hrun : gateRun ops c = some c2) (hc : c ≤ SemCapacity) :
    ∀ x ∈ heldCounts ops c, x ≤ SemCapacity := by
  induction ops generalizing c with
  | nil =>
    intro x hx
    simp [heldCounts] at hx
    omega
  | cons op rest ih =>
    cases op with
    | enter =>
      intro x hx
      by_cases hlt : c < SemCapacity
      · simp [gateRun, hlt] at hrun
        simp [heldCounts] at hx
        rcases hx with rfl | hx
        · exact hc
        · exact ih (c + 1) hrun (by omega) x hx
      · simp [gateRun, hlt] at hrun
    | exit =>
      intro x hx
      simp [gateRun] at hrun
      simp [heldCounts] at hx
      rcases hx with rfl | hx
      · exact hc
      · exact ih (c - 1) hrun (by omega) x hx

/-- C5: when the admission gate cannot be entered within the timeout,
ProcessCheckIn terminates with the admission-timeout error and its trace is
empty, so in particular no lock-service call, no booking lookup and no store
read or write happen on that path. -/
theorem admission_timeout_no_calls (w : World) (h : w.semFree = false) :
    (ProcessCheckIn w).1 = CheckInResult.admissionTimeout ∧
    (ProcessCheckIn w).2 = [] ∧
    (∀ k b, Event.lockAcquire k b ∉ (ProcessCheckIn w).2) ∧
    Event.getBooking ∉ (ProcessCheckIn w).2 ∧
    (∀ s, Event.checkOccupied s ∉ (ProcessCheckIn w).2) ∧
    (∀ s b, Event.updateBooking s b ∉ (ProcessCheckIn w).2) ∧
    (∀ s b, Event.setOccupied s b ∉ (ProcessCheckIn w).2) := by
  simp [ProcessCheckIn, h]

/-- Concrete world for the admission-timeout path: no semaphore slot frees up
within the window. -/
def wAdmission : World :=
  ⟨false, none, false, ReadRes.err, none, ReadRes.err, false, false, false⟩

theorem admission_timeout_no_calls_witness :
    (ProcessCheckIn wAdmission).1 = CheckInResult.admissionTimeout ∧
    (ProcessCheckIn wAdmission).2 = [] ∧
    (∀ k b, Event.lockAcquire k b ∉ (ProcessCheckIn wAdmission).2) ∧
    Event.getBooking ∉ (ProcessCheckIn wAdmission).2 ∧
    (∀ s, Event.checkOccupied s ∉ (ProcessCheckIn wAdmission).2) ∧
    (∀ s b, Event.updateBooking s b ∉ (ProcessCheckIn wAdmission).2) ∧
    (∀ s b, Event.setOccupied s b ∉ (ProcessCheckIn wAdmission).2) :=
  admission_timeout_no_calls wAdmission rfl

/-- C6: every run that acquires an admission ticket releases it on every
terminal outcome (the semaphore projection of any run trace is empty or
exactly one enter followed by one exit), and under the channel semantics of
the 50-slot semaphore no reachable held count ever exceeds the capacity. -/
theorem admission_ticket_released_and_bounded :
    (∀ w, gateEvents (ProcessCheckIn w).2 = [] ∨
          gateEvents (ProcessCheckIn w).2 = [GateOp.enter, GateOp.exit]) ∧
    (∀ ops c2, gateRun ops 0 = some c2 →
      ∀ x ∈ heldCounts ops 0, x ≤ SemCapacity) := by
  refine ⟨gateShape, ?_⟩
  intro ops c2 hrun
  exact heldCounts_bounded ops 0 c2 hrun (by simp [SemCapacity])

/-- Concrete world for a fully successful run: admitted, booking found, the
original space locked and verified free, both writes succeed. -/
def wsCommit : World :=
  ⟨true, some ⟨"bk1", "user1", "lotA", "spA", "confirmed", none, "t0"⟩,
   true, ReadRes.val false, none, ReadRes.err, true, true, true⟩

theorem admission_ticket_released_and_bounded_witness :
    (gateEvents (ProcessCheckIn wsCommit).2 = [] ∨
     gateEvents (ProcessCheckIn wsCommit).2 = [GateOp.enter, GateOp.exit]) ∧
    (∀ x ∈ heldCounts [GateOp.enter, GateOp.exit] 0, x ≤ SemCapacity) :=
  ⟨admission_ticket_released_and_bounded.1 wsCommit,
   admission_ticket_released_and_bounded.2 [GateOp.enter, GateOp.exit] 0 (by decide)⟩

/-- C9 evidence: the consumer loop of the main package calls ProcessCheckIn
synchronously, so over any queue of requests the admission ticket count never
exceeds one — at most one check-in workflow is ever in flight, although the
semaphore capacity is 50. -/
theorem consumer_loop_single_flight (ws : List World) :
    ∀ x ∈ heldCounts (gateEvents (processParkingRequest ws)) 0, x ≤ 1 := by
  induction ws with
  | nil =>
    intro x hx
    simp [processParkingRequest, gateEvents, heldCounts] at hx
    omega
  | cons w rest ih =>
    intro x hx
    rw [processParkingRequest, gateEvents_append] at hx
    rcases gateShape w with hsh | hsh
    · rw [hsh] at hx
      exact ih x hx
    · rw [hsh] at hx
      simp [heldCounts] at hx
      rcases hx with rfl | rfl | hx
      · omega
      · omega
      · exact ih x hx

/-- Two concrete queued requests for the consumer loop, both admissible. -/
def wsQueuedPair : List World :=
  [⟨true, some ⟨"bk1", "user1", "lotA", "spA", "confirmed", none, "t0"⟩,
    true, ReadRes.val false, none, ReadRes.err, true, true, true⟩,
   ⟨true, some ⟨"bk2", "user2", "lotA", "spB", "confirmed", none, "t0"⟩,
    true, ReadRes.val false, none, ReadRes.err, true, true, true⟩]

theorem consumer_loop_single_flight_witness :
    1 ∈ heldCounts (gateEvents (processParkingRequest wsQueuedPair)) 0 ∧ 1 ≤ 1 :=
  ⟨by decide, consumer_loop_single_flight wsQueuedPair 1 (by decide)⟩

theorem countRevert_append (a b : List Event) :
    countRevert (a ++ b) = countRevert a + countRevert b := by
  induction a with
  | nil => simp [countRevert]
  | cons e es ih => cases e <;> simp [countRevert, ih] <;> omega

theorem countFinder_append (a b : List Event) :
    countFinder (a ++ b) = countFinder a + countFinder b := by
  induction a with
  | nil => simp [countFinder]
  | cons e es ih => cases e <;> simp [countFinder, ih] <;> omega

theorem reach_processSpot (w : World) (h : assignEntered w) :
    ∃ s pre, ProcessCheckIn w = ((processSpot w s).1, pre ++ (processSpot w s).2) ∧
      countRevert pre = 0 ∧
      (∀ b, Event.revertBooking b ∉ pre) ∧
      (∀ s2 b2, Event.setOccupied s2 b2 ∉ pre) ∧
      (∀ s2 b2, Event.updateBooking s2 b2 ∉ pre) := by
  obtain ⟨hs, hb, hpath⟩ := h
  obtain ⟨b, hbb⟩ := Option.isSome_iff_exists.mp hb
  rcases hpath with ⟨hlo, hco⟩ | ⟨hnv, hf, hca⟩
  · refine ⟨b.parkingSpaceId,
      [Event.semAcquire, Event.getBooking, Event.lockAcquire (lockKey b.parkingSpaceId) true,
       Event.checkOccupied b.parkingSpaceId], ?_, ?_, ?_, ?_, ?_⟩
    · simp [ProcessCheckIn, hs, hbb, hlo, hco]
    · simp [countRevert]
    · simp
    · simp
    · simp
  · obtain ⟨alt, halt⟩ := Option.isSome_iff_exists.mp hf
    cases hlo : w.lockOriginal with
    | false =>
      refine ⟨alt,
        [Event.semAcquire, Event.getBooking, Event.lockAcquire (lockKey b.parkingSpaceId) false,
         Event.finderCall, Event.lockAcquire (lockKey alt) true, Event.checkOccupied alt,
         Event.notify (Notify.alternativeFound alt)], ?_, ?_, ?_, ?_, ?_⟩
      · simp [ProcessCheckIn, hs, hbb, hlo, findAlternativePhase, halt, hca]
      · simp [countRevert]
      · simp
      · simp
      · simp
    | true =>
      cases hco : w.checkOriginal with
      | err =>
        refine ⟨alt,
          [Event.semAcquire, Event.getBooking, Event.lockAcquire (lockKey b.parkingSpaceId) true,
           Event.checkOccupied b.parkingSpaceId, Event.lockRelease (lockKey b.parkingSpaceId),
           Event.finderCall, Event.lockAcquire (lockKey alt) true, Event.checkOccupied alt,
           Event.notify (Notify.alternativeFound alt)], ?_, ?_, ?_, ?_, ?_⟩
        · simp [ProcessCheckIn, hs, hbb, hlo, hco, findAlternativePhase, halt, hca]
        · simp [countRevert]
        · simp
        · simp
        · simp
      | val occ =>
        cases occ with
        | false => exact absurd ⟨hlo, hco⟩ hnv
        | true =>
          refine ⟨alt,
            [Event.semAcquire, Event.getBooking, Event.lockAcquire (lockKey b.parkingSpaceId) true,
             Event.checkOccupied b.parkingSpaceId, Event.lockRelease (lockKey b.parkingSpaceId),
             Event.notify (Notify.findAlternative b.parkingSpaceId),
             Event.finderCall, Event.lockAcquire (lockKey alt) true, Event.checkOccupied alt,
             Event.notify (Notify.alternativeFound alt)], ?_, ?_, ?_, ?_, ?_⟩
          · simp [ProcessCheckIn, hs, hbb, hlo, hco, findAlternativePhase, halt, hca]
          · simp [countRevert]
          · simp
          · simp
          · simp

/-- C2: when the booking update to active succeeded but the occupancy write
fails, the run performs exactly one compensating RevertBookingSpot call and
terminates with the space-update error, whatever the outcome of the revert
(the revertOk field of the world is left free). -/
theorem space_update_failure_one_revert (w : World)
    (h : assignEntered w) (hub : w.updateBookingOk = true) (hso : w.setOccupiedOk = false) :
    (ProcessCheckIn w).1 = CheckInResult.updateSpaceErr ∧
    countRevert (ProcessCheckIn w).2 = 1 := by
  obtain ⟨s, pre, heq, hcr, _, _, _⟩ := reach_processSpot w h
  rw [heq]
  constructor
  · simp [processSpot, hub, hso]
  · simp [countRevert_append, hcr, processSpot, hub, hso, countRevert]

/-- Concrete world for the compensation path: original space locked and free,
booking update succeeds, occupancy write fails, revert fails as well. -/
def wCompensation : World :=
  ⟨true, some ⟨"bk1", "user1", "lotA", "spA", "confirmed", none, "t0"⟩,
   true, ReadRes.val false, none, ReadRes.err, true, false, false⟩

theorem space_update_failure_one_revert_witness :
    (ProcessCheckIn wCompensation).1 = CheckInResult.updateSpaceErr ∧
    countRevert (ProcessCheckIn wCompensation).2 = 1 :=
  space_update_failure_one_revert wCompensation
    ⟨rfl, rfl, Or.inl ⟨rfl, rfl⟩⟩ rfl rfl

/-- C8: when the booking update to active fails, the run terminates with the
booking-update error, never writes the occupied flag, never calls the revert,
and the lock on the chosen space is still released on the way out. -/
theorem booking_update_failure_frame (w : World)
    (h : assignEntered w) (hub : w.updateBookingOk = false) :
    (ProcessCheckIn w).1 = CheckInResult.updateBookingErr ∧
    (∀ s b, Event.setOccupied s b ∉ (ProcessCheckIn w).2) ∧
    (∀ b, Event.revertBooking b ∉ (ProcessCheckIn w).2) ∧
    (∃ s, Event.updateBooking s false ∈ (ProcessCheckIn w).2 ∧
          Event.lockRelease (lockKey s) ∈ (ProcessCheckIn w).2) := by
  obtain ⟨s, pre, heq, _, hrv, hsoc, hupb⟩ := reach_processSpot w h
  rw [heq]
  refine ⟨by simp [processSpot, hub], ?_, ?_, ?_⟩
  · intro s2 b2
    simp only [List.mem_append]
    rintro (hmem | hmem)
    · exact hsoc s2 b2 hmem
    · simp [processSpot, hub] at hmem
  · intro b2
    simp only [List.mem_append]
    rintro (hmem | hmem)
    · exact hrv b2 hmem
    · simp [processSpot, hub] at hmem
  · refine ⟨s, ?_, ?_⟩
    · simp [processSpot, hub]
    · simp [processSpot, hub]

/-- Concrete world for the booking-update failure path. -/
def wBookingFail : World :=
  ⟨true, some ⟨"bk1", "user1", "lotA", "spA", "confirmed", none, "t0"⟩,
   true, ReadRes.val false, none, ReadRes.err, false, true, true⟩

theorem booking_update_failure_frame_witness :
    (ProcessCheckIn wBookingFail).1 = CheckInResult.updateBookingErr ∧
    (∀ s b, Event.setOccupied s b ∉ (ProcessCheckIn wBookingFail).2) ∧
    (∀ b, Event.revertBooking b ∉ (ProcessCheckIn wBookingFail).2) ∧
    (∃ s, Event.updateBooking s false ∈ (ProcessCheckIn wBookingFail).2 ∧
          Event.lockRelease (lockKey s) ∈ (ProcessCheckIn wBookingFail).2) :=
  booking_update_failure_frame wBookingFail ⟨rfl, rfl, Or.inl ⟨rfl, rfl⟩⟩ rfl

/-- C7: on the alternative path, an occupied or failed re-check of the space
returned by the Finder releases the lock on that space and terminates with
the no-available-spot error, with the Finder invoked exactly once; on the
original-space path a store error during verification instead sends the run
on to the alternative search. -/
theorem alt_recheck_hard_failure_vs_original_store_error :
    (∀ w b alt, w.semFree = true → w.booking = some b → ¬ viaOriginal w →
      w.finder = some alt →
      (w.checkAlt = ReadRes.err ∨ w.checkAlt = ReadRes.val true) →
      (ProcessCheckIn w).1 = CheckInResult.noAvailableSpot ∧
      Event.lockRelease (lockKey alt) ∈ (ProcessCheckIn w).2 ∧
      countFinder (ProcessCheckIn w).2 = 1) ∧
    (∀ w b, w.semFree = true → w.booking = some b → w.lockOriginal = true →
      w.checkOriginal = ReadRes.err →
      Event.finderCall ∈ (ProcessCheckIn w).2) := by
  constructor
  · intro w b alt hs hb hnv halt hca
    cases hlo : w.lockOriginal with
    | false =>
      rcases hca with hca | hca <;>
        simp [ProcessCheckIn, hs, hb, hlo, findAlternativePhase, halt, hca,
              countFinder_append, countFinder]
    | true =>
      cases hco : w.checkOriginal with
      | err =>
        rcases hca with hca | hca <;>
          simp [ProcessCheckIn, hs, hb, hlo, hco, findAlternativePhase, halt, hca,
                countFinder_append, countFinder]
      | val occ =>
        cases occ with
        | false => exact absurd ⟨hlo, hco⟩ hnv
        | true =>
          rcases hca with hca | hca <;>
            simp [ProcessCheckIn, hs, hb, hlo, hco, findAlternativePhase, halt, hca,
                  countFinder_append, countFinder]
  · intro w b hs hb hlo hco
    cases halt : w.finder with
    | none => simp [ProcessCheckIn, hs, hb, hlo, hco, findAlternativePhase, halt]
    | some alt =>
      cases hca : w.checkAlt with
      | err => simp [ProcessCheckIn, hs, hb, hlo, hco, findAlternativePhase, halt, hca]
      | val occ =>
        cases occ <;>
          simp [ProcessCheckIn, hs, hb, hlo, hco, findAlternativePhase, halt, hca]

/-- Concrete world for the alternative-path hard failure: the original lock is
held elsewhere, the Finder returns a space whose re-check reports occupied. -/
def wAltOccupied : World :=
  ⟨true, some ⟨"bk1", "user1", "lotA", "spA", "confirmed", none, "t0"⟩,
   false, ReadRes.err, some "spB", ReadRes.val true, true, true, true⟩

/-- Concrete world for the original-path store error: the lock on the original
space is acquired but the occupancy read fails. -/
def wOrigStoreErr : World :=
  ⟨true, some ⟨"bk1", "user1", "lotA", "spA", "confirmed", none, "t0"⟩,
   true, ReadRes.err, some "spB", ReadRes.val false, true, true, true⟩

theorem alt_recheck_hard_failure_witness :
    ((ProcessCheckIn wAltOccupied).1 = CheckInResult.noAvailableSpot ∧
     Event.lockRelease (lockKey "spB") ∈ (ProcessCheckIn wAltOccupied).2 ∧
     countFinder (ProcessCheckIn wAltOccupied).2 = 1) ∧
    Event.finderCall ∈ (ProcessCheckIn wOrigStoreErr).2 :=
  ⟨alt_recheck_hard_failure_vs_original_store_error.1 wAltOccupied
      ⟨"bk1", "user1", "lotA", "spA", "confirmed", none, "t0"⟩ "spB"
      rfl rfl (by simp [viaOriginal, wAltOccupied]) rfl (Or.inr rfl),
   alt_recheck_hard_failure_vs_original_store_error.2 wOrigStoreErr
      ⟨"bk1", "user1", "lotA", "spA", "confirmed", none, "t0"⟩ rfl rfl rfl rfl⟩

/-- C4 counterexample input: a run whose lock acquisition on the original
space fails; the Finder then finds nothing. -/
def wLockBusy : World :=
  ⟨true, some ⟨"bk1", "user1", "lotA", "spA", "confirmed", none, "t0"⟩,
   false, ReadRes.err, none, ReadRes.err, true, true, true⟩

/-- C4 counterexample: on the failed-lock path the run does proceed to the
alternative search, but no find-alternative notification for the original
space is ever emitted, against the claim that one is emitted first. -/
theorem lock_failure_notification_cex :
    Event.finderCall ∈ (ProcessCheckIn wLockBusy).2 ∧
    Event.notify (Notify.findAlternative "spA") ∉ (ProcessCheckIn wLockBusy).2 := by
  constructor
  · simp [ProcessCheckIn, wLockBusy, findAlternativePhase]
  · simp [ProcessCheckIn, wLockBusy, findAlternativePhase]

/-- C4 amended: when lock acquisition on the original space fails, the run
proceeds directly to the alternative search and emits no find-alternative
notification at all (the branch only logs); that notification is emitted on
the other path, where the lock is acquired but the re-check reports the
original space occupied. -/
theorem lock_failure_goes_straight_to_search :
    (∀ w b, w.semFree = true → w.booking = some b → w.lockOriginal = false →
      Event.finderCall ∈ (ProcessCheckIn w).2 ∧
      (∀ s, Event.notify (Notify.findAlternative s) ∉ (ProcessCheckIn w).2)) ∧
    (∀ w b, w.semFree = true → w.booking = some b → w.lockOriginal = true →
      w.checkOriginal = ReadRes.val true →
      Event.notify (Notify.findAlternative b.parkingSpaceId) ∈ (ProcessCheckIn w).2 ∧
      Event.finderCall ∈ (ProcessCheckIn w).2) := by
  constructor
  · intro w b hs hb hlo
    constructor
    · cases halt : w.finder with
      | none => simp [ProcessCheckIn, hs, hb, hlo, findAlternativePhase, halt]
      | some alt =>
        cases hca : w.checkAlt with
        | err => simp [ProcessCheckIn, hs, hb, hlo, findAlternativePhase, halt, hca]
        | val occ =>
          cases occ <;> simp [ProcessCheckIn, hs, hb, hlo, findAlternativePhase, halt, hca]
    · intro s
      cases halt : w.finder with
      | none => simp [ProcessCheckIn, hs, hb, hlo, findAlternativePhase, halt]
      | some alt =>
        cases hca : w.checkAlt with
        | err => simp [ProcessCheckIn, hs, hb, hlo, findAlternativePhase, halt, hca]
        | val occ =>
          cases occ with
          | true => simp [ProcessCheckIn, hs, hb, hlo, findAlternativePhase, halt, hca]
          | false =>
            cases hub : w.updateBookingOk <;> cases hso : w.setOccupiedOk <;>
              simp [ProcessCheckIn, hs, hb, hlo, findAlternativePhase, halt, hca,
                    processSpot, hub, hso]
  · intro w b hs hb hlo hco
    constructor
    · cases halt : w.finder with
      | none => simp [ProcessCheckIn, hs, hb, hlo, hco, findAlternativePhase, halt]
      | some alt =>
        cases hca : w.checkAlt with
        | err => simp [ProcessCheckIn, hs, hb, hlo, hco, findAlternativePhase, halt, hca]
        | val occ =>
          cases occ <;> simp [ProcessCheckIn, hs, hb, hlo, hco, findAlternativePhase, halt, hca]
    · cases halt : w.finder with
      | none => simp [ProcessCheckIn, hs, hb, hlo, hco, findAlternativePhase, halt]
      | some alt =>
        cases hca : w.checkAlt with
        | err => simp [ProcessCheckIn, hs, hb, hlo, hco, findAlternativePhase, halt, hca]
        | val occ =>
          cases occ <;> simp [ProcessCheckIn, hs, hb, hlo, hco, findAlternativePhase, halt, hca]

/-- Concrete world for the failed-lock path of the amended claim, with an
alternative space available. -/
def wLockBusy2 : World :=
  ⟨true, some ⟨"bk1", "user1", "lotA", "spA", "confirmed", none, "t0"⟩,
   false, ReadRes.err, some "spB", ReadRes.val false, true, true, true⟩

/-- Concrete world for the occupied-after-lock path of the amended claim. -/
def wOrigOccupied : World :=
  ⟨true, some ⟨"bk1", "user1", "lotA", "spA", "confirmed", none, "t0"⟩,
   true, ReadRes.val true, some "spB", ReadRes.val false, true, true, true⟩

theorem lock_failure_goes_straight_to_search_witness :
    (Event.finderCall ∈ (ProcessCheckIn wLockBusy2).2 ∧
     (∀ s, Event.notify (Notify.findAlternative s) ∉ (ProcessCheckIn wLockBusy2).2)) ∧
    (Event.notify (Notify.findAlternative "spA") ∈ (ProcessCheckIn wOrigOccupied).2 ∧
     Event.finderCall ∈ (ProcessCheckIn wOrigOccupied).2) :=
  ⟨lock_failure_goes_straight_to_search.1 wLockBusy2
      ⟨"bk1", "user1", "lotA", "spA", "confirmed", none, "t0"⟩ rfl rfl rfl,
   lock_failure_goes_straight_to_search.2 wOrigOccupied
      ⟨"bk1", "user1", "lotA", "spA", "confirmed", none, "t0"⟩ rfl rfl rfl rfl⟩

/-- C1 counterexample input: lot lotA with two free spaces and no blocking
reservation; the lock key of the first space is already held elsewhere. -/
def dbTwoFree : SpotDB :=
  ⟨[⟨"s1", "lotA", false⟩, ⟨"s2", "lotA", false⟩], [], ["spot-lock:s1"]⟩

/-- C1 counterexample: s2 is a candidate whose lock acquisition would succeed,
yet the implementation fails with the no-available-spot error, because its
query stops after the first candidate; the enumerate-all reading of the claim
would have returned s2. -/
theorem finder_misses_second_candidate :
    FindAndLockAvailableSpot dbTwoFree "lotA" = none ∧
    "s2" ∈ candidateSpaces dbTwoFree "lotA" ∧
    lockKey "s2" ∉ dbTwoFree.heldLocks ∧
    findAndLockSpec dbTwoFree "lotA" = some "s2" := by decide

/-- C1 amended: FindAndLockAvailableSpot considers at most the first candidate
of the lot (the availability query carries LIMIT 1); it returns that candidate
exactly when its lock key is free, and fails with the no-available-spot error
when the lot has no candidate or the first candidate is already locked, even
if the lock of a later candidate could be acquired. -/
theorem finder_tries_only_first_candidate (db : SpotDB) (lot : String) :
    FindAndLockAvailableSpot db lot =
      match (candidateSpaces db lot).head? with
      | none => none
      | some c => if lockKey c ∈ db.heldLocks then none else some c := by
  unfold FindAndLockAvailableSpot
  cases h : candidateSpaces db lot with
  | nil => simp [lockFirstFree]
  | cons c rest => simp [List.take, lockFirstFree]

/-- C3 counterexample input: a single booking b1 owned by requester alice. -/
def dbAliceBooking : List Reservation :=
  [⟨"b1", "alice", "lotA", "s1", "confirmed", none, "t0"⟩]

/-- C3 counterexample: looked up with reference b1 by requester bob, the
booking of alice is returned as-is instead of being treated as absent. -/
theorem booking_lookup_returns_other_requester :
    GetBookingByID dbAliceBooking "b1" "bob" =
      some ⟨"b1", "alice", "lotA", "s1", "confirmed", none, "t0"⟩ ∧
    GetBookingByID dbAliceBooking "b1" "bob" ≠ none := by decide

/-- C3 amended: the booking lookup uses the reference only; the requester
argument does not influence the result, and the lookup comes back empty (the
not-found path) exactly when no reservation row carries that reference. -/
theorem booking_lookup_by_reference_only (db : List Reservation) (ref u u2 : String) :
    GetBookingByID db ref u = GetBookingByID db ref u2 ∧
    (GetBookingByID db ref u = none ↔ ∀ r ∈ db, r.id ≠ ref) := by
  refine ⟨rfl, ?_⟩
  unfold GetBookingByID
  rw [List.head?_eq_none_iff, List.filter_eq_nil_iff]
  simp

/-- C10: for status active, UpdateBookingWithSpot refuses the update whenever
the occupancy pre-read of the target space reports occupied or fails, leaving
the reservations table untouched (the error return carries no store); for a
status other than active, such as completed, the update runs with no such
guard and succeeds on a matching row even when the space reads occupied. -/
theorem update_booking_active_guard :
    (∀ st now u bid lot spot,
      (IsParkingSpaceOccupied st.spaces spot = Except.ok true ∨
       (∃ e, IsParkingSpaceOccupied st.spaces spot = Except.error e)) →
      ∃ e2, UpdateBookingWithSpot st now "active" u bid lot spot = Except.error e2) ∧
    (∀ st now u bid lot spot,
      IsParkingSpaceOccupied st.spaces spot = Except.ok true →
      st.reservations.any (fun r => r.id == bid && r.userId == u) = true →
      ∃ st2, UpdateBookingWithSpot st now "completed" u bid lot spot = Except.ok st2) := by
  constructor
  · intro st now u bid lot spot hocc
    rcases hocc with hocc | ⟨e, hocc⟩ <;>
      simp [UpdateBookingWithSpot, hocc]
  · intro st now u bid lot spot hocc hrow
    simp [UpdateBookingWithSpot, updateReservations, hrow]

/-- Concrete store for the active-status guard: space s1 occupied, one booking
row for user1. -/
def stOccupied : Store :=
  ⟨[⟨"s1", "lotA", true⟩],
   [⟨"b1", "user1", "lotA", "s0", "confirmed", none, "t0"⟩]⟩

theorem update_booking_active_guard_witness :
    (∃ e2, UpdateBookingWithSpot stOccupied "t1" "active" "user1" "b1" "lotA" "s1" =
      Except.error e2) ∧
    (∃ st2, UpdateBookingWithSpot stOccupied "t1" "completed" "user1" "b1" "lotA" "s1" =
      Except.ok st2) :=
  ⟨update_booking_active_guard.1 stOccupied "t1" "user1" "b1" "lotA" "s1" (Or.inl rfl),
   update_booking_active_guard.2 stOccupied "t1" "user1" "b1" "lotA" "s1" rfl rfl⟩
